import Mathlib

/-!
# go-sse: client registry and point-to-point delivery

A shallow embedding of `main.go`: the package-level registry `clients`, the
mutex `mut`, the functions `getClientId`, `updateClient`, `getClient` and
`eventsHandlerfunc`, together with the small part of `net/http` they call
(`Request.Cookie`, `ResponseWriter.Write`, `WriteHeader`, `Header().Set`,
`http.Error`, `http.SetCookie`, `Flusher.Flush`).

Go pointers to a handler's `http.ResponseWriter` / `http.Flusher` are handles
(`Nat`) into the table `World.rws` of response writers.  Every effect a
function performs is appended to `World.trace`, in program order.
-/

namespace GoSSE

/-! ## Data model -/

/-- The struct `Client` (main.go 21-24): two pointers, kept as handles. -/
structure Client where
  writer : Nat
  flusher : Nat
deriving DecidableEq, Repr

/-- The struct `ReqBody` (main.go 26-29). -/
structure ReqBody where
  Message : String
  To : String
deriving DecidableEq, Repr

/-- The fields of `http.Cookie` that main.go 96-103 sets; `Expires` in seconds. -/
structure Cookie where
  Name : String
  Value : String
  Path : String
  Expires : Nat
  HttpOnly : Bool
  Secure : Bool
deriving DecidableEq, Repr

/-- Errors of `net/http` seen by `getClientId`. -/
inductive HttpErr where
  | ErrNoCookie
  | ErrOther
deriving DecidableEq, Repr

/-- One observable effect, recorded in program order. -/
inductive Event where
  | lock
  | unlock
  | mapLoad (key : String)
  | mapStore (key : String) (c : Client)
  | mapDelete (key : String)
  | write (rw : Nat) (bytes : String)
  | flush (rw : Nat)
  | stdout (line : String)
deriving DecidableEq, Repr

/-- The state of one `http.ResponseWriter`.  `isFlusher` says whether the
type assertion `w.(http.Flusher)` succeeds, `alive` whether the transport
still accepts writes, `status` is the header already written (if any). -/
structure ResponseWriter where
  isFlusher : Bool
  alive : Bool
  header : List (String × String)
  cookies : List Cookie
  status : Option Nat
  body : String
  flushes : Nat
deriving DecidableEq, Repr

/-- An incoming request: its method, the cookies parsed from its header, and
the outcome of `json.NewDecoder(r.Body).Decode(&message)` on its body
(`none` when decoding returns an error). -/
structure Request where
  Method : String
  cookies : List Cookie
  decoded : Option ReqBody
deriving DecidableEq, Repr

/-- The process state: the package variable `clients`, the response writers
of all requests, the effect trace, the values `uuid.New().String()` is going
to return with the index of the next one, and the clock. -/
structure World where
  clients : List (String × Client)
  rws : Nat → ResponseWriter
  trace : List Event
  uuids : Nat → String
  uuidNext : Nat
  now : Nat

/-! ## The Go map `clients` -/

/-- Go `m[k]` with the comma-ok form. -/
def mapLoad (m : List (String × Client)) (k : String) : Option Client :=
  (m.find? (fun kv => kv.1 == k)).map Prod.snd

/-- Go `delete(m, k)`. -/
def mapDelete (m : List (String × Client)) (k : String) : List (String × Client) :=
  m.filter (fun kv => !(kv.1 == k))

/-- Go `m[k] = v`. -/
def mapStore (m : List (String × Client)) (k : String) (v : Client) :
    List (String × Client) :=
  (k, v) :: mapDelete m k

/-- Number of entries of the map stored under key `k`. -/
def mapCount (m : List (String × Client)) (k : String) : Nat :=
  (m.filter (fun kv => kv.1 == k)).length

/-! ## The part of `net/http` used by the handler -/

/-- Append one effect to the trace. -/
def World.emit (w : World) (e : Event) : World :=
  { w with trace := w.trace ++ [e] }

/-- Replace the state of response writer `h`. -/
def World.setRw (w : World) (h : Nat) (rw : ResponseWriter) : World :=
  { w with rws := fun i => if i = h then rw else w.rws i }

/-- `(*Request).Cookie`: the first cookie of that name, else `ErrNoCookie`. -/
def Request.Cookie (r : Request) (name : String) : Except HttpErr Cookie :=
  if name = "" then .error .ErrNoCookie
  else
    match r.cookies.find? (fun c => c.Name == name) with
    | some c => .ok c
    | none => .error .ErrNoCookie

/-- `w.Header().Set(k, v)`. -/
def headerSet (h : Nat) (k v : String) (w : World) : World :=
  let rw := w.rws h
  w.setRw h { rw with header := (rw.header.filter (fun kv => !(kv.1 == k))) ++ [(k, v)] }

/-- `Header().Get(k)`: the value stored under `k`, if any. -/
def headerGet (hdr : List (String × String)) (k : String) : Option String :=
  (hdr.find? (fun kv => kv.1 == k)).map Prod.snd

/-- `w.WriteHeader(code)`: the first status written wins. -/
def writeHeader (h : Nat) (code : Nat) (w : World) : World :=
  let rw := w.rws h
  match rw.status with
  | some _ => w
  | none => w.setRw h { rw with status := some code }

/-- `fmt.Fprintf(w, ...)` with the formatted bytes `s`: one `Write` call.  The
attempt is recorded; on a live transport the implicit `200` header is written
first and the bytes are appended, on a dead one the call returns an error
(`false`) and the body is untouched. -/
def fprintf (h : Nat) (s : String) (w : World) : Bool × World :=
  let w := w.emit (.write h s)
  let rw := w.rws h
  if rw.alive then
    let w := writeHeader h 200 w
    let rw := w.rws h
    (true, w.setRw h { rw with body := rw.body ++ s })
  else (false, w)

/-- `Flusher.Flush()`. -/
def flush (h : Nat) (w : World) : World :=
  let w := w.emit (.flush h)
  let w := if (w.rws h).alive then writeHeader h 200 w else w
  let rw := w.rws h
  w.setRw h { rw with flushes := rw.flushes + 1 }

/-- `http.Error(w, msg, code)`: the two headers it sets, the status, and the
message as one line. -/
def httpError (h : Nat) (msg : String) (code : Nat) (w : World) : World :=
  let w := headerSet h "Content-Type" "text/plain; charset=utf-8" w
  let w := headerSet h "X-Content-Type-Options" "nosniff" w
  let w := writeHeader h code w
  (fprintf h (msg ++ "\n") w).2

/-- `http.SetCookie(w, cookie)`, recorded as the cookie struct handed over. -/
def setCookie (h : Nat) (c : Cookie) (w : World) : World :=
  let rw := w.rws h
  w.setRw h { rw with cookies := rw.cookies ++ [c] }

/-- The status the peer of response writer `h` receives: the one written, or
the default `200` that `net/http` sends when the handler wrote none. -/
def statusOf (w : World) (h : Nat) : Nat :=
  ((w.rws h).status).getD 200

/-! ## main.go -/

/-- `getClientId` (main.go 31-42).  `none` is the nil dereference of
`cookie.Value` reached when `err` is neither nil nor `ErrNoCookie`. -/
def getClientId (r : Request) (w : World) : Option String × World :=
  match r.Cookie "sse_client_id" with
  | .error err =>
    if err = HttpErr.ErrNoCookie then
      (some (w.uuids w.uuidNext), { w with uuidNext := w.uuidNext + 1 })
    else (none, w)
  | .ok cookie => (some cookie.Value, w)

/-- `updateClient` (main.go 44-59). -/
def updateClient (clientId : String) (flusher writer : Nat) (isListening : Bool)
    (w : World) : World :=
  let w := w.emit .lock
  if !isListening then
    let w := { w with clients := mapDelete w.clients clientId }
    let w := w.emit (.mapDelete clientId)
    w.emit .unlock
  else
    let c : Client := { writer := writer, flusher := flusher }
    let w := { w with clients := mapStore w.clients clientId c }
    let w := w.emit (.mapStore clientId c)
    w.emit .unlock

/-- `getClient` (main.go 61-69). -/
def getClient (clientId : String) (w : World) : Option Client × World :=
  let w := w.emit (.mapLoad clientId)
  match mapLoad w.clients clientId with
  | none => (none, w)
  | some client => (some client, w)

/-- How a call of the handler ends: it returned, it is blocked in the
`select` on `notify` (main.go 111-119) with its locals, or it panicked. -/
inductive Outcome where
  | returned (w : World)
  | waiting (clientId : String) (h : Nat) (w : World)
  | panicked (w : World)

/-- The world an outcome leaves behind. -/
def Outcome.world : Outcome → World
  | .returned w => w
  | .waiting _ _ w => w
  | .panicked w => w

/-- `eventsHandlerfunc` (main.go 71-144) for the request `r` whose response
writer is `h`, up to its return or to the wait on `notify`. -/
def eventsHandlerfunc (h : Nat) (r : Request) (w : World) : Outcome :=
  match getClientId r w with
  | (none, w) => .panicked w
  | (some clientId, w) =>
    if r.Method = "GET" then
      if !(w.rws h).isFlusher then
        .returned (httpError h "Streaming unsupported" 500 w)
      else
        let w := updateClient clientId h h true w
        let w := w.emit (.stdout ("Stream joined by -  " ++ clientId ++ "\n"))
        let w := headerSet h "Content-Type" "text/event-stream" w
        let w := headerSet h "Cache-Control" "no-cache" w
        let w := headerSet h "Connection" "keep-alive" w
        let cookie : Cookie :=
          { Name := "sse_client_id", Value := clientId, Path := "/",
            Expires := w.now + 24 * 3600, HttpOnly := true, Secure := false }
        let w := setCookie h cookie w
        let w := (fprintf h ("Welcome to the event stream - " ++ clientId ++ "\n") w).2
        let w := flush h w
        .waiting clientId h w
    else if r.Method = "POST" then
      match r.decoded with
      | none => .returned (httpError h "Invalid JSON" 400 w)
      | some message =>
        match getClient message.To w with
        | (none, w) => .returned (httpError h "To client not found" 400 w)
        | (some client, w) =>
          let w := (fprintf client.writer (message.Message ++ " \n") w).2
          let w := flush client.flusher w
          .returned w
    else
      .returned (writeHeader h 405 w)

/-- The `case <-notify` branch (main.go 113-117) of a waiting session. -/
def onNotify (clientId : String) (h : Nat) (w : World) : World :=
  updateClient clientId h h false w

/-! ## Lock discipline over a trace -/

/-- Walk a trace with the current state of `mut`: a map access needs the lock
held, a stream write or flush needs it released, `Lock` needs it free and
`Unlock` needs it held; at the end the lock must be released. -/
def disciplined : Bool → List Event → Bool
  | held, [] => !held
  | held, .lock :: es => !held && disciplined true es
  | held, .unlock :: es => held && disciplined false es
  | held, .mapLoad _ :: es => held && disciplined held es
  | held, .mapStore _ _ :: es => held && disciplined held es
  | held, .mapDelete _ :: es => held && disciplined held es
  | held, .write _ _ :: es => !held && disciplined held es
  | held, .flush _ :: es => !held && disciplined held es
  | held, .stdout _ :: es => disciplined held es

/-! ## Sessions -/

/-- The server with the sessions currently blocked on their closure signal,
each with its identity and response writer. -/
structure Sys where
  world : World
  attached : List (String × Nat)

/-- One step of the server: a handler call that returns, a GET that attaches
a session, or the closure signal of an attached session.  A request arrives
with a response writer of its own, one that no attached session holds. -/
inductive Step : Sys → Sys → Prop where
  | call (s : Sys) (h : Nat) (r : Request) (w : World) :
      eventsHandlerfunc h r s.world = .returned w →
      (∀ p ∈ s.attached, p.2 ≠ h) →
      Step s ⟨w, s.attached⟩
  | attach (s : Sys) (h : Nat) (r : Request) (id : String) (w : World) :
      eventsHandlerfunc h r s.world = .waiting id h w →
      (∀ p ∈ s.attached, p.2 ≠ h) →
      Step s ⟨w, (id, h) :: s.attached⟩
  | close (s : Sys) (id : String) (h : Nat) :
      (id, h) ∈ s.attached →
      Step s ⟨onNotify id h s.world, s.attached.erase (id, h)⟩

/-- Reachability by finitely many steps. -/
inductive Reach (s0 : Sys) : Sys → Prop where
  | refl : Reach s0 s0
  | step (s t : Sys) : Reach s0 s → Step s t → Reach s0 t

/-- Every attached session has a registry entry. -/
def attachedRegistered (s : Sys) : Prop :=
  ∀ p ∈ s.attached, mapLoad s.world.clients p.1 ≠ none

/-- A fresh response writer on a live, flush-capable transport. -/
def freshRw : ResponseWriter :=
  { isFlusher := true, alive := true, header := [], cookies := [], status := none,
    body := "", flushes := 0 }

/-- The process at start: empty registry, nothing written. -/
def initWorld : World :=
  { clients := [], rws := fun _ => freshRw, trace := [],
    uuids := fun n => "uuid-" ++ toString n, uuidNext := 0, now := 0 }

/-! ## Concrete inputs -/

/-- A POST of `message` addressed to `target`, carrying no cookie. -/
def postReq (message target : String) : Request :=
  { Method := "POST", cookies := [], decoded := some { Message := message, To := target } }

/-- A POST whose body does not decode. -/
def badPostReq : Request :=
  { Method := "POST", cookies := [], decoded := none }

/-- A GET presenting the identity token `tok`. -/
def getReq (tok : String) : Request :=
  { Method := "GET",
    cookies := [{ Name := "sse_client_id", Value := tok, Path := "", Expires := 0,
                  HttpOnly := false, Secure := false }],
    decoded := none }

/-- A GET presenting no token. -/
def getReqNoCookie : Request :=
  { Method := "GET", cookies := [], decoded := none }

/-- Identity `"A"` registered with the live response writer `0`. -/
def worldA : World :=
  { initWorld with clients := [("A", { writer := 0, flusher := 0 })] }

/-- Identity `"A"` registered with response writer `0`, whose transport is dead. -/
def worldDeadA : World :=
  { initWorld with
    clients := [("A", { writer := 0, flusher := 0 })],
    rws := fun i => if i = 0 then { freshRw with alive := false } else freshRw }

/-! ## Facts about the map -/

theorem mapLoad_mapDelete_self (m : List (String × Client)) (k : String) :
    mapLoad (mapDelete m k) k = none := by
  induction m with
  | nil => rfl
  | cons p t ih =>
    obtain ⟨a, b⟩ := p
    simp only [mapDelete, mapLoad] at ih ⊢
    by_cases hp : a = k
    · subst hp; simp [List.filter_cons]
    · simp [List.filter_cons, List.find?_cons, hp]

theorem mapLoad_mapDelete_ne (m : List (String × Client)) (k j : String) (hne : j ≠ k) :
    mapLoad (mapDelete m k) j = mapLoad m j := by
  induction m with
  | nil => rfl
  | cons p t ih =>
    obtain ⟨a, b⟩ := p
    simp only [mapDelete, mapLoad] at ih ⊢
    by_cases hp : a = k
    · subst hp
      have hj : ¬ a = j := fun h => hne h.symm
      simpa [List.filter_cons, List.find?_cons, hj] using ih
    · by_cases hj : a = j
      · subst hj; simp [List.filter_cons, List.find?_cons, hp]
      · simpa [List.filter_cons, List.find?_cons, hp, hj] using ih

theorem mapDelete_of_absent (m : List (String × Client)) (k : String)
    (habs : mapLoad m k = none) : mapDelete m k = m := by
  induction m with
  | nil => rfl
  | cons p t ih =>
    obtain ⟨a, b⟩ := p
    by_cases hp : a = k
    · subst hp; simp [mapLoad, List.find?_cons] at habs
    · have ht : mapLoad t k = none := by
        simpa [mapLoad, List.find?_cons, hp] using habs
      have := ih ht
      simp only [mapDelete] at this
      simp [mapDelete, List.filter_cons, hp, this]

theorem mapDelete_idem (m : List (String × Client)) (k : String) :
    mapDelete (mapDelete m k) k = mapDelete m k :=
  mapDelete_of_absent _ _ (mapLoad_mapDelete_self m k)

theorem mapCount_mapDelete_self (m : List (String × Client)) (k : String) :
    mapCount (mapDelete m k) k = 0 := by
  induction m with
  | nil => rfl
  | cons p t ih =>
    obtain ⟨a, b⟩ := p
    simp only [mapDelete, mapCount] at ih ⊢
    by_cases hp : a = k
    · subst hp; simp [List.filter_cons]
    · simp [List.filter_cons, hp]

theorem mapLoad_mapStore_self (m : List (String × Client)) (k : String) (v : Client) :
    mapLoad (mapStore m k v) k = some v := by
  simp [mapStore, mapLoad, List.find?_cons]

theorem mapLoad_mapStore_ne (m : List (String × Client)) (k j : String) (v : Client)
    (hne : j ≠ k) : mapLoad (mapStore m k v) j = mapLoad m j := by
  have hk : ¬ k = j := fun h => hne h.symm
  have := mapLoad_mapDelete_ne m k j hne
  simp only [mapLoad] at this
  simp [mapStore, mapLoad, List.find?_cons, hk, this]

theorem mapCount_mapStore_self (m : List (String × Client)) (k : String) (v : Client) :
    mapCount (mapStore m k v) k = 1 := by
  have := mapCount_mapDelete_self m k
  simp only [mapCount] at this
  simp [mapStore, mapCount, List.filter_cons, this]

theorem mapStore_mapStore (m : List (String × Client)) (k : String) (u v : Client) :
    mapStore (mapStore m k u) k v = mapStore m k v := by
  have := mapDelete_idem m k
  simp only [mapDelete] at this
  simp [mapStore, mapDelete, List.filter_cons, this]

/-! ## Facts about the library calls -/

theorem cookie_ok_or_absent (r : Request) (name : String) :
    (∃ c, r.Cookie name = .ok c) ∨ r.Cookie name = .error HttpErr.ErrNoCookie := by
  unfold Request.Cookie
  by_cases hn : name = ""
  · simp [hn]
  · cases hf : r.cookies.find? (fun c => c.Name == name) with
    | none => simp [hn]
    | some c => simp [hn]

/-- The identity resolver always yields an identity and touches nothing but
the generator index. -/
theorem getClientId_total (r : Request) (w : World) :
    ∃ id w1, getClientId r w = (some id, w1) ∧ w1.clients = w.clients ∧
      w1.rws = w.rws ∧ w1.trace = w.trace ∧ w1.now = w.now := by
  unfold getClientId
  rcases cookie_ok_or_absent r "sse_client_id" with ⟨c, hc⟩ | hc
  · rw [hc]; exact ⟨c.Value, w, rfl, rfl, rfl, rfl, rfl⟩
  · rw [hc]
    exact ⟨w.uuids w.uuidNext, { w with uuidNext := w.uuidNext + 1 }, by simp, rfl, rfl, rfl, rfl⟩

/-! ## Facts about writing and flushing -/

theorem writeHeader_clients (h code : Nat) (w : World) :
    (writeHeader h code w).clients = w.clients := by
  unfold writeHeader
  dsimp only
  split <;> rfl

theorem writeHeader_trace (h code : Nat) (w : World) :
    (writeHeader h code w).trace = w.trace := by
  unfold writeHeader
  dsimp only
  split <;> rfl

theorem writeHeader_other (h code k : Nat) (w : World) (hk : k ≠ h) :
    (writeHeader h code w).rws k = w.rws k := by
  unfold writeHeader
  dsimp only
  split <;> simp [World.setRw, hk]

theorem writeHeader_self (h code : Nat) (w : World) :
    (writeHeader h code w).rws h =
      { w.rws h with status := some (((w.rws h).status).getD code) } := by
  unfold writeHeader
  dsimp only
  split
  · next c hs => simp [hs]; rw [← hs]
  · next hs => simp [World.setRw, hs]

theorem fprintf_clients (h : Nat) (s : String) (w : World) :
    (fprintf h s w).2.clients = w.clients := by
  unfold fprintf
  by_cases ha : (w.rws h).alive
  · simp [World.emit, World.setRw, ha, writeHeader_clients]
  · simp [World.emit, ha]

theorem fprintf_trace (h : Nat) (s : String) (w : World) :
    (fprintf h s w).2.trace = w.trace ++ [Event.write h s] := by
  unfold fprintf
  by_cases ha : (w.rws h).alive
  · simp [World.emit, World.setRw, ha, writeHeader_trace]
  · simp [World.emit, ha]

theorem fprintf_other (h k : Nat) (s : String) (w : World) (hk : k ≠ h) :
    (fprintf h s w).2.rws k = w.rws k := by
  unfold fprintf
  by_cases ha : (w.rws h).alive
  · simp [World.emit, World.setRw, ha, hk, writeHeader_other]
  · simp [World.emit, ha]

theorem fprintf_alive (h : Nat) (s : String) (w : World) (ha : (w.rws h).alive = true) :
    (fprintf h s w).2.rws h =
      { w.rws h with status := some (((w.rws h).status).getD 200),
                     body := (w.rws h).body ++ s } := by
  unfold fprintf
  simp [World.emit, World.setRw, ha, writeHeader_self]

theorem fprintf_dead (h : Nat) (s : String) (w : World) (ha : (w.rws h).alive = false) :
    (fprintf h s w).2.rws = w.rws ∧ (fprintf h s w).1 = false := by
  unfold fprintf
  simp [World.emit, ha]

theorem flush_clients (h : Nat) (w : World) : (flush h w).clients = w.clients := by
  unfold flush
  by_cases ha : (w.rws h).alive
  · simp [World.emit, World.setRw, ha, writeHeader_clients]
  · simp [World.emit, World.setRw, ha]

theorem flush_trace (h : Nat) (w : World) : (flush h w).trace = w.trace ++ [Event.flush h] := by
  unfold flush
  by_cases ha : (w.rws h).alive
  · simp [World.emit, World.setRw, ha, writeHeader_trace]
  · simp [World.emit, World.setRw, ha]

theorem flush_other (h k : Nat) (w : World) (hk : k ≠ h) : (flush h w).rws k = w.rws k := by
  unfold flush
  by_cases ha : (w.rws h).alive
  · simp [World.emit, World.setRw, ha, hk, writeHeader_other]
  · simp [World.emit, World.setRw, ha, hk]

theorem flush_self (h : Nat) (w : World) :
    (flush h w).rws h =
      { w.rws h with
        status := if (w.rws h).alive then some (((w.rws h).status).getD 200)
                  else (w.rws h).status,
        flushes := (w.rws h).flushes + 1 } := by
  unfold flush
  by_cases ha : (w.rws h).alive
  · simp [World.emit, World.setRw, ha, writeHeader_self]
  · simp [World.emit, World.setRw, ha]

theorem statusOf_fprintf (h k : Nat) (s : String) (w : World) :
    statusOf (fprintf h s w).2 k = statusOf w k := by
  unfold statusOf
  by_cases hk : k = h
  · subst hk
    by_cases ha : (w.rws k).alive = true
    · rw [fprintf_alive k s w ha]
      cases (w.rws k).status <;> rfl
    · rw [(fprintf_dead k s w (by simpa using ha)).1]
  · rw [fprintf_other h k s w hk]

theorem statusOf_flush (h k : Nat) (w : World) :
    statusOf (flush h w) k = statusOf w k := by
  unfold statusOf
  by_cases hk : k = h
  · subst hk
    rw [flush_self]
    by_cases ha : (w.rws k).alive = true
    · simp only [ha, if_true]
      cases (w.rws k).status <;> rfl
    · simp [ha]
  · rw [flush_other h k w hk]

theorem headerSet_clients (h : Nat) (k v : String) (w : World) :
    (headerSet h k v w).clients = w.clients := rfl

theorem headerSet_trace (h : Nat) (k v : String) (w : World) :
    (headerSet h k v w).trace = w.trace := rfl

theorem headerSet_other (h j : Nat) (k v : String) (w : World) (hj : j ≠ h) :
    (headerSet h k v w).rws j = w.rws j := by
  simp [headerSet, World.setRw, hj]

theorem headerSet_status (h : Nat) (k v : String) (w : World) :
    ((headerSet h k v w).rws h).status = (w.rws h).status := by
  simp [headerSet, World.setRw]

theorem httpError_clients (h code : Nat) (msg : String) (w : World) :
    (httpError h msg code w).clients = w.clients := by
  unfold httpError
  simp [fprintf_clients, writeHeader_clients, headerSet_clients]

theorem httpError_trace (h code : Nat) (msg : String) (w : World) :
    (httpError h msg code w).trace = w.trace ++ [Event.write h (msg ++ "\n")] := by
  unfold httpError
  simp [fprintf_trace, writeHeader_trace, headerSet_trace]

theorem httpError_other (h code k : Nat) (msg : String) (w : World) (hk : k ≠ h) :
    (httpError h msg code w).rws k = w.rws k := by
  unfold httpError
  simp [fprintf_other, writeHeader_other, headerSet_other, hk]

theorem httpError_status (h code : Nat) (msg : String) (w : World)
    (hfresh : (w.rws h).status = none) : statusOf (httpError h msg code w) h = code := by
  unfold httpError
  simp only [statusOf_fprintf]
  unfold statusOf
  rw [writeHeader_self]
  simp [headerSet_status, hfresh]

theorem writeHeader_withClients (h code : Nat) (w : World) (cl : List (String × Client)) :
    writeHeader h code { w with clients := cl } =
      { writeHeader h code w with clients := cl } := by
  unfold writeHeader
  dsimp only
  cases (w.rws h).status <;> rfl

theorem fprintf_withClients (h : Nat) (s : String) (w : World) (cl : List (String × Client)) :
    (fprintf h s { w with clients := cl }).2 = { (fprintf h s w).2 with clients := cl } := by
  unfold fprintf
  by_cases ha : (w.rws h).alive = true
  · have := writeHeader_withClients h 200 (w.emit (.write h s)) cl
    simp only [World.emit] at this
    simp [World.emit, ha, this, World.setRw]
  · simp [World.emit, ha]

theorem httpError_withClients (h code : Nat) (msg : String) (w : World)
    (cl : List (String × Client)) :
    httpError h msg code { w with clients := cl } =
      { httpError h msg code w with clients := cl } := by
  unfold httpError
  have h1 : headerSet h "X-Content-Type-Options" "nosniff"
      (headerSet h "Content-Type" "text/plain; charset=utf-8" { w with clients := cl }) =
      { headerSet h "X-Content-Type-Options" "nosniff"
          (headerSet h "Content-Type" "text/plain; charset=utf-8" w) with clients := cl } := rfl
  dsimp only
  rw [h1, writeHeader_withClients, fprintf_withClients]

/-! ## The branches of the handler -/

theorem getClientId_clients (r : Request) (w : World) (cl : List (String × Client)) :
    getClientId r { w with clients := cl } =
      ((getClientId r w).1, { (getClientId r w).2 with clients := cl }) := by
  unfold getClientId
  rcases cookie_ok_or_absent r "sse_client_id" with ⟨c, hc⟩ | hc
  · rw [hc]
  · rw [hc]; simp

theorem post_malformed (h : Nat) (r : Request) (w w1 : World) (id : String)
    (hm : r.Method = "POST") (hd : r.decoded = none)
    (hid : getClientId r w = (some id, w1)) :
    eventsHandlerfunc h r w = .returned (httpError h "Invalid JSON" 400 w1) := by
  unfold eventsHandlerfunc
  rw [hid]
  simp [hm, hd]

theorem post_unknown (h : Nat) (r : Request) (w w1 : World) (id : String) (b : ReqBody)
    (hm : r.Method = "POST") (hd : r.decoded = some b)
    (hid : getClientId r w = (some id, w1)) (habs : mapLoad w1.clients b.To = none) :
    eventsHandlerfunc h r w =
      .returned (httpError h "To client not found" 400 (w1.emit (.mapLoad b.To))) := by
  unfold eventsHandlerfunc
  rw [hid]
  have : mapLoad (w1.emit (.mapLoad b.To)).clients b.To = none := habs
  simp [hm, hd, getClient, this]

theorem post_found (h : Nat) (r : Request) (w w1 : World) (id : String) (b : ReqBody)
    (c : Client) (hm : r.Method = "POST") (hd : r.decoded = some b)
    (hid : getClientId r w = (some id, w1)) (hreg : mapLoad w1.clients b.To = some c) :
    eventsHandlerfunc h r w =
      .returned (flush c.flusher
        (fprintf c.writer (b.Message ++ " \n") (w1.emit (.mapLoad b.To))).2) := by
  unfold eventsHandlerfunc
  rw [hid]
  have : mapLoad (w1.emit (.mapLoad b.To)).clients b.To = some c := hreg
  simp [hm, hd, getClient, this]

/-! ## Delivery (POST) -/

/-- C1 fails on the code: with `"A"` registered on the live, empty response
writer `0`, the POST of `hi` to `"A"` from writer `1` does one lookup, one
write and one flush and the sender gets 200, but the bytes written are `hi`,
a stray space and the newline (the format of main.go 137), not `hi` followed
by the line terminator alone; the other stream write of the program, the
welcome line of main.go 108, ends with the newline right after its text. -/
theorem C1_post_writes_stray_space :
    mapLoad worldA.clients "A" = some { writer := 0, flusher := 0 } ∧
    (worldA.rws 0).alive = true ∧ (worldA.rws 0).body = "" ∧
    (eventsHandlerfunc 1 (postReq "hi" "A") worldA).world.trace =
      [Event.mapLoad "A", Event.write 0 "hi \n", Event.flush 0] ∧
    ((eventsHandlerfunc 1 (postReq "hi" "A") worldA).world.rws 0).body = "hi \n" ∧
    ¬ ((eventsHandlerfunc 1 (postReq "hi" "A") worldA).world.rws 0).body = "hi" ++ "\n" ∧
    statusOf (eventsHandlerfunc 1 (postReq "hi" "A") worldA).world 1 = 200 ∧
    ((eventsHandlerfunc 1 (getReq "X") initWorld).world.rws 1).body =
      "Welcome to the event stream - X" ++ "\n" := by
  decide

/-- What the delivery branch of the handler does (main.go 131-138): when the
target `A` of a POST `{message: m, to: A}` is
registered with entry `c` on a live sink, the handler returns having done,
in this order, one registry lookup, one write of `m ++ " \n"` (the message,
one space, the line terminator) to `c.writer` and one flush of `c.flusher`;
the sink's body grows by exactly those bytes, the flush count by one, every
other response writer and the registry are untouched, and the sender, whose
response writer was fresh, gets status 200. -/
theorem post_found_effects (h : Nat) (r : Request) (w : World)
    (m A : String) (c : Client)
    (hm : r.Method = "POST") (hd : r.decoded = some { Message := m, To := A })
    (hreg : mapLoad w.clients A = some c) (hlive : (w.rws c.writer).alive = true)
    (hfresh : (w.rws h).status = none) :
    ∃ w', eventsHandlerfunc h r w = .returned w' ∧
      w'.trace = w.trace ++
        [Event.mapLoad A, Event.write c.writer (m ++ " \n"), Event.flush c.flusher] ∧
      (w'.rws c.writer).body = (w.rws c.writer).body ++ (m ++ " \n") ∧
      (w'.rws c.flusher).flushes = (w.rws c.flusher).flushes + 1 ∧
      (∀ k, k ≠ c.writer → k ≠ c.flusher → w'.rws k = w.rws k) ∧
      w'.clients = w.clients ∧ statusOf w' h = 200 := by
  obtain ⟨id, w1, hid, hcl, hrws, htr, _⟩ := getClientId_total r w
  have hlive1 : ((w1.emit (.mapLoad A)).rws c.writer).alive = true := by
    show (w1.rws c.writer).alive = true
    rw [hrws]; exact hlive
  have hrw1 : (w1.emit (.mapLoad A)).rws = w.rws := hrws
  refine ⟨_, post_found h r w w1 id _ c hm hd hid (by rw [hcl]; exact hreg), ?_, ?_, ?_, ?_, ?_, ?_⟩
  · simp [flush_trace, fprintf_trace, World.emit, htr]
  · by_cases hwf : c.flusher = c.writer
    · rw [hwf, flush_self, fprintf_alive _ _ _ hlive1, hrw1]
    · rw [flush_other _ _ _ (Ne.symm hwf), fprintf_alive _ _ _ hlive1, hrw1]
  · by_cases hwf : c.flusher = c.writer
    · rw [hwf, flush_self, fprintf_alive _ _ _ hlive1, hrw1]
    · rw [flush_self, fprintf_other _ _ _ _ hwf, hrw1]
  · intro k hkw hkf
    rw [flush_other _ _ _ hkf, fprintf_other _ _ _ _ hkw, hrw1]
  · rw [flush_clients, fprintf_clients]; exact hcl
  · rw [statusOf_flush, statusOf_fprintf]
    unfold statusOf
    rw [hrw1, hfresh]; rfl

/-- The delivery branch at `"A"` on writer `0`, message `hi`, sender on
writer `1`. -/
theorem post_found_effects_at_A :
    (postReq "hi" "A").Method = "POST" ∧
    mapLoad worldA.clients "A" = some { writer := 0, flusher := 0 } ∧
    (worldA.rws 0).alive = true ∧ (worldA.rws 1).status = none ∧
    (eventsHandlerfunc 1 (postReq "hi" "A") worldA).world.trace =
      [Event.mapLoad "A", Event.write 0 ("hi" ++ " \n"), Event.flush 0] ∧
    statusOf (eventsHandlerfunc 1 (postReq "hi" "A") worldA).world 1 = 200 := by
  obtain ⟨w', hret, htr, _, _, _, _, hst⟩ :=
    post_found_effects 1 (postReq "hi" "A") worldA "hi" "A"
      { writer := 0, flusher := 0 } rfl rfl (by decide) (by decide) (by decide)
  rw [hret]
  exact ⟨rfl, by decide, by decide, by decide, htr, hst⟩

/-- C2: a well-formed POST whose target has no registry entry is answered
400; the handler returns having done one registry lookup and one write, the
error text on the sender's own response writer; no flush happens, every
other response writer is untouched and the registry is unchanged. -/
theorem C2_unknown_target_400 (h : Nat) (r : Request) (w : World) (b : ReqBody)
    (hm : r.Method = "POST") (hd : r.decoded = some b)
    (habs : mapLoad w.clients b.To = none) (hfresh : (w.rws h).status = none) :
    ∃ w', eventsHandlerfunc h r w = .returned w' ∧
      statusOf w' h = 400 ∧
      w'.trace = w.trace ++ [Event.mapLoad b.To, Event.write h "To client not found\n"] ∧
      (∀ k, k ≠ h → w'.rws k = w.rws k) ∧
      w'.clients = w.clients := by
  obtain ⟨id, w1, hid, hcl, hrws, htr, _⟩ := getClientId_total r w
  have hrw1 : (w1.emit (.mapLoad b.To)).rws = w.rws := hrws
  refine ⟨_, post_unknown h r w w1 id b hm hd hid (by rw [hcl]; exact habs), ?_, ?_, ?_, ?_⟩
  · apply httpError_status
    rw [hrw1]; exact hfresh
  · rw [httpError_trace]
    simp [World.emit, htr]
  · intro k hk
    rw [httpError_other _ _ _ _ _ hk, hrw1]
  · rw [httpError_clients]; exact hcl

/-- C2 at the target `"ghost"` with only `"A"` registered. -/
theorem C2_unknown_target_witness :
    (postReq "hi" "ghost").Method = "POST" ∧
    mapLoad worldA.clients "ghost" = none ∧ (worldA.rws 1).status = none ∧
    statusOf (eventsHandlerfunc 1 (postReq "hi" "ghost") worldA).world 1 = 400 ∧
    (eventsHandlerfunc 1 (postReq "hi" "ghost") worldA).world.rws 0 = worldA.rws 0 ∧
    (eventsHandlerfunc 1 (postReq "hi" "ghost") worldA).world.clients = worldA.clients := by
  obtain ⟨w', hret, hst, _, hframe, hcl⟩ :=
    C2_unknown_target_400 1 (postReq "hi" "ghost") worldA { Message := "hi", To := "ghost" }
      rfl rfl (by decide) (by decide)
  rw [hret]
  exact ⟨rfl, by decide, by decide, hst, hframe 0 (by decide), hcl⟩

/-- C3: a POST whose body fails to decode is answered 400 and the handler
returns having done a single effect, the write of the error text on the
sender's own response writer: no registry lookup, no flush, every other
response writer untouched, the registry unchanged; and run against any other
registry contents it leaves the same response writers and the same trace. -/
theorem C3_malformed_body_400 (h : Nat) (r : Request) (w : World)
    (hm : r.Method = "POST") (hd : r.decoded = none)
    (hfresh : (w.rws h).status = none) :
    ∃ w', eventsHandlerfunc h r w = .returned w' ∧
      statusOf w' h = 400 ∧
      w'.trace = w.trace ++ [Event.write h "Invalid JSON\n"] ∧
      (∀ k, k ≠ h → w'.rws k = w.rws k) ∧
      w'.clients = w.clients ∧
      ∀ cl : List (String × Client),
        eventsHandlerfunc h r { w with clients := cl } =
          .returned { w' with clients := cl } := by
  obtain ⟨id, w1, hid, hcl, hrws, htr, _⟩ := getClientId_total r w
  refine ⟨_, post_malformed h r w w1 id hm hd hid, ?_, ?_, ?_, ?_, ?_⟩
  · apply httpError_status
    rw [hrws]; exact hfresh
  · rw [httpError_trace, htr]; rfl
  · intro k hk
    rw [httpError_other _ _ _ _ _ hk, hrws]
  · rw [httpError_clients]; exact hcl
  · intro cl
    have hid2 : getClientId r { w with clients := cl } = (some id, { w1 with clients := cl }) := by
      rw [getClientId_clients, hid]
    rw [post_malformed h r _ _ id hm hd hid2, httpError_withClients]

/-- C3 at an undecodable POST from writer `1`, against the registry holding
`"A"` and against the empty registry. -/
theorem C3_malformed_body_witness :
    badPostReq.Method = "POST" ∧ badPostReq.decoded = none ∧
    (worldA.rws 1).status = none ∧
    statusOf (eventsHandlerfunc 1 badPostReq worldA).world 1 = 400 ∧
    (eventsHandlerfunc 1 badPostReq worldA).world.trace =
      [Event.write 1 "Invalid JSON\n"] ∧
    (eventsHandlerfunc 1 badPostReq { worldA with clients := [] }).world.rws =
      (eventsHandlerfunc 1 badPostReq worldA).world.rws := by
  obtain ⟨w', hret, hst, htr, _, _, hany⟩ :=
    C3_malformed_body_400 1 badPostReq worldA rfl rfl (by decide)
  rw [hany [], hret]
  exact ⟨rfl, rfl, by decide, hst, htr, rfl⟩

/-- C9, as stated, fails: with `"A"` registered on a response writer whose
transport is dead, the write of the POST handler returns an error, and the
sender is still answered with status 200, not with a 5xx. -/
theorem C9_write_failure_counterexample :
    mapLoad worldDeadA.clients "A" = some { writer := 0, flusher := 0 } ∧
    (fprintf 0 ("hi" ++ " \n") ((getClient "A" worldDeadA).2)).1 = false ∧
    statusOf (eventsHandlerfunc 1 (postReq "hi" "A") worldDeadA).world 1 = 200 ∧
    ¬ (500 ≤ statusOf (eventsHandlerfunc 1 (postReq "hi" "A") worldDeadA).world 1) := by
  decide

/-- C9 (amended): when the target of a POST is registered but its sink no
longer accepts writes, the handler ignores the error of the write: it
returns having done one lookup, one write attempt (no retry) and one flush,
nothing reaches the sink's body, the registry is unchanged, and the sender,
whose response writer was fresh, gets the default status 200. -/
theorem C9_write_failure_still_200 (h : Nat) (r : Request) (w : World)
    (m A : String) (c : Client)
    (hm : r.Method = "POST") (hd : r.decoded = some { Message := m, To := A })
    (hreg : mapLoad w.clients A = some c) (hdead : (w.rws c.writer).alive = false)
    (hfresh : (w.rws h).status = none) :
    ∃ w', eventsHandlerfunc h r w = .returned w' ∧
      (fprintf c.writer (m ++ " \n") w).1 = false ∧
      statusOf w' h = 200 ∧
      w'.trace = w.trace ++
        [Event.mapLoad A, Event.write c.writer (m ++ " \n"), Event.flush c.flusher] ∧
      (w'.rws c.writer).body = (w.rws c.writer).body ∧
      w'.clients = w.clients := by
  obtain ⟨id, w1, hid, hcl, hrws, htr, _⟩ := getClientId_total r w
  have hrw1 : (w1.emit (.mapLoad A)).rws = w.rws := hrws
  have hdead1 : ((w1.emit (.mapLoad A)).rws c.writer).alive = false := by
    rw [hrw1]; exact hdead
  refine ⟨_, post_found h r w w1 id _ c hm hd hid (by rw [hcl]; exact hreg), ?_, ?_, ?_, ?_, ?_⟩
  · exact (fprintf_dead _ _ _ hdead).2
  · rw [statusOf_flush, statusOf_fprintf]
    unfold statusOf
    rw [hrw1, hfresh]; rfl
  · simp [flush_trace, fprintf_trace, World.emit, htr]
  · by_cases hwf : c.flusher = c.writer
    · rw [hwf, flush_self, (fprintf_dead _ _ _ hdead1).1, hrw1]
    · rw [flush_other _ _ _ (Ne.symm hwf), (fprintf_dead _ _ _ hdead1).1, hrw1]
  · rw [flush_clients, fprintf_clients]; exact hcl

/-- C9 (amended) at `"A"` on the dead writer `0`, sender on writer `1`. -/
theorem C9_write_failure_witness :
    (postReq "hi" "A").Method = "POST" ∧
    mapLoad worldDeadA.clients "A" = some { writer := 0, flusher := 0 } ∧
    (worldDeadA.rws 0).alive = false ∧ (worldDeadA.rws 1).status = none ∧
    statusOf (eventsHandlerfunc 1 (postReq "hi" "A") worldDeadA).world 1 = 200 ∧
    ((eventsHandlerfunc 1 (postReq "hi" "A") worldDeadA).world.rws 0).body = "" := by
  obtain ⟨w', hret, _, hst, _, hbody, _⟩ :=
    C9_write_failure_still_200 1 (postReq "hi" "A") worldDeadA "hi" "A"
      { writer := 0, flusher := 0 } rfl rfl (by decide) (by decide) (by decide)
  rw [hret]
  exact ⟨rfl, by decide, by decide, by decide, hst, hbody⟩

/-! ## Identity resolution -/

/-- C4: when the request carries a cookie `sse_client_id`, `getClientId`
returns the value of the first such cookie and leaves the world, the
generator index included, as it was; when it carries none, it returns the
next value of the generator and advances it; in every case it returns an
identity (the nil dereference is never reached). -/
theorem C4_identity_stability (r : Request) (w : World) :
    (∀ c, r.cookies.find? (fun c => c.Name == "sse_client_id") = some c →
      getClientId r w = (some c.Value, w)) ∧
    ((∀ c ∈ r.cookies, c.Name ≠ "sse_client_id") →
      getClientId r w =
        (some (w.uuids w.uuidNext), { w with uuidNext := w.uuidNext + 1 })) ∧
    (getClientId r w).1.isSome = true := by
  refine ⟨?_, ?_, ?_⟩
  · intro c hc
    simp [getClientId, Request.Cookie, hc]
  · intro hnone
    have hf : r.cookies.find? (fun c => c.Name == "sse_client_id") = none := by
      rw [List.find?_eq_none]
      intro c hc
      simpa using hnone c hc
    simp [getClientId, Request.Cookie, hf]
  · obtain ⟨id, w1, hid, _⟩ := getClientId_total r w
    rw [hid]; rfl

/-- C4 at a request presenting the token `tok` and at one presenting none. -/
theorem C4_identity_stability_witness :
    getClientId (getReq "tok") initWorld = (some "tok", initWorld) ∧
    (getClientId getReqNoCookie initWorld).1 = some (initWorld.uuids 0) ∧
    (getClientId getReqNoCookie initWorld).2.uuidNext = 1 := by
  have h1 := (C4_identity_stability (getReq "tok") initWorld).1 _ rfl
  have h2 := (C4_identity_stability getReqNoCookie initWorld).2.1
    (by intro c hc; cases hc)
  rw [h2]
  exact ⟨h1, rfl, rfl⟩

/-! ## Registry updates -/

theorem updateClient_store_clients (id : String) (f wr : Nat) (w : World) :
    (updateClient id f wr true w).clients =
      mapStore w.clients id { writer := wr, flusher := f } := rfl

theorem updateClient_delete_clients (id : String) (f wr : Nat) (w : World) :
    (updateClient id f wr false w).clients = mapDelete w.clients id := rfl

theorem updateClient_rws (id : String) (f wr : Nat) (b : Bool) (w : World) :
    (updateClient id f wr b w).rws = w.rws := by
  cases b <;> rfl

theorem getClient_fst (id : String) (w : World) :
    (getClient id w).1 = mapLoad w.clients id := by
  unfold getClient
  dsimp only
  show (match mapLoad w.clients id with
    | none => (none, w.emit (.mapLoad id))
    | some client => (some client, w.emit (.mapLoad id))).1 = mapLoad w.clients id
  cases mapLoad w.clients id <;> rfl

/-- C5: once `B` has been registered and its session runs the closure branch
(`updateClient` with `isListening = false`), looking `B` up finds nothing,
and so does a lookup after the removal from any registry at all; the removal
leaves the entry of every other identity as it was; and when `B` has no
entry the removal leaves the registry unchanged. -/
theorem C5_disconnect_cleanup (w : World) (B : String) (f1 wr1 f2 wr2 : Nat) :
    (getClient B (updateClient B f2 wr2 false (updateClient B f1 wr1 true w))).1 = none ∧
    (getClient B (onNotify B wr1 (updateClient B wr1 wr1 true w))).1 = none ∧
    (getClient B (updateClient B f2 wr2 false w)).1 = none ∧
    (∀ k, k ≠ B →
      mapLoad (updateClient B f2 wr2 false w).clients k = mapLoad w.clients k) ∧
    (mapLoad w.clients B = none → (updateClient B f2 wr2 false w).clients = w.clients) := by
  refine ⟨?_, ?_, ?_, ?_, ?_⟩
  · rw [getClient_fst, updateClient_delete_clients]
    exact mapLoad_mapDelete_self _ _
  · rw [getClient_fst]
    exact mapLoad_mapDelete_self _ _
  · rw [getClient_fst, updateClient_delete_clients]
    exact mapLoad_mapDelete_self _ _
  · intro k hk
    rw [updateClient_delete_clients]
    exact mapLoad_mapDelete_ne _ _ _ hk
  · intro habs
    rw [updateClient_delete_clients]
    exact mapDelete_of_absent _ _ habs

/-- C5 at `"B"` closing next to the registered `"A"`, and at `"B"` absent. -/
theorem C5_disconnect_cleanup_witness :
    mapLoad (updateClient "B" 2 2 false (updateClient "B" 2 2 true worldA)).clients "A" =
      mapLoad (updateClient "B" 2 2 true worldA).clients "A" ∧
    mapLoad worldA.clients "B" = none ∧
    (updateClient "B" 2 2 false worldA).clients = worldA.clients := by
  have h := C5_disconnect_cleanup (updateClient "B" 2 2 true worldA) "B" 2 2 2 2
  have h0 := C5_disconnect_cleanup worldA "B" 2 2 2 2
  exact ⟨h.2.2.2.1 "A" (by decide), by decide, h0.2.2.2.2 (by decide)⟩

/-- C6: registering `C` with a first entry and then with a second leaves
exactly one entry under `C`, looking `C` up returns the second entry, the
registry equals the one obtained by registering the second entry alone, and
the entry of every other identity is as it was before both. -/
theorem C6_replacement_last_writer_wins (w : World) (C : String) (f1 wr1 f2 wr2 : Nat) :
    mapCount (updateClient C f2 wr2 true (updateClient C f1 wr1 true w)).clients C = 1 ∧
    (getClient C (updateClient C f2 wr2 true (updateClient C f1 wr1 true w))).1 =
      some { writer := wr2, flusher := f2 } ∧
    (updateClient C f2 wr2 true (updateClient C f1 wr1 true w)).clients =
      (updateClient C f2 wr2 true w).clients ∧
    (∀ k, k ≠ C →
      mapLoad (updateClient C f2 wr2 true (updateClient C f1 wr1 true w)).clients k =
        mapLoad w.clients k) := by
  refine ⟨?_, ?_, ?_, ?_⟩
  · rw [updateClient_store_clients]
    exact mapCount_mapStore_self _ _ _
  · rw [getClient_fst, updateClient_store_clients]
    exact mapLoad_mapStore_self _ _ _
  · simp only [updateClient_store_clients]
    exact mapStore_mapStore _ _ _ _
  · intro k hk
    simp only [updateClient_store_clients]
    rw [mapLoad_mapStore_ne _ _ _ _ hk, mapLoad_mapStore_ne _ _ _ _ hk]

/-- C6 at `"C"` registered twice next to the registered `"A"`. -/
theorem C6_replacement_witness :
    mapLoad (updateClient "C" 2 2 true (updateClient "C" 1 1 true worldA)).clients "A" =
      mapLoad worldA.clients "A" ∧
    mapCount (updateClient "C" 2 2 true (updateClient "C" 1 1 true worldA)).clients "C" = 1 := by
  have h := C6_replacement_last_writer_wins worldA "C" 1 1 2 2
  exact ⟨h.2.2.2 "A" (by decide), h.1⟩

/-! ## Lock discipline -/

/-- C8 fails on the code: `getClient` reads the map with no `Lock` before and
no `Unlock` after, so its trace breaks the discipline, and so does the trace
of a whole POST; `updateClient`, on both of its branches, takes the lock,
touches the map and releases the lock. -/
theorem C8_getClient_reads_map_unlocked (id : String) (f wr : Nat) (w : World) :
    (getClient id w).2.trace = w.trace ++ [Event.mapLoad id] ∧
    disciplined false [Event.mapLoad id] = false ∧
    (eventsHandlerfunc 1 (postReq "hi" "A") worldA).world.trace =
      [Event.mapLoad "A", Event.write 0 "hi \n", Event.flush 0] ∧
    disciplined false (eventsHandlerfunc 1 (postReq "hi" "A") worldA).world.trace = false ∧
    (updateClient id f wr true w).trace =
      w.trace ++ [Event.lock, Event.mapStore id { writer := wr, flusher := f }, Event.unlock] ∧
    disciplined false
      [Event.lock, Event.mapStore id { writer := wr, flusher := f }, Event.unlock] = true ∧
    (updateClient id f wr false w).trace =
      w.trace ++ [Event.lock, Event.mapDelete id, Event.unlock] ∧
    disciplined false [Event.lock, Event.mapDelete id, Event.unlock] = true := by
  refine ⟨?_, rfl, by decide, by decide, ?_, rfl, ?_, rfl⟩
  · unfold getClient
    dsimp only
    show (match mapLoad w.clients id with
      | none => (none, w.emit (.mapLoad id))
      | some client => (some client, w.emit (.mapLoad id))).2.trace = _
    cases mapLoad w.clients id <;> rfl
  · simp [updateClient, World.emit]
  · simp [updateClient, World.emit]

/-! ## Stream opening (GET) -/

theorem headerGet_set_self (l : List (String × String)) (k v : String) :
    headerGet (l.filter (fun kv => !(kv.1 == k)) ++ [(k, v)]) k = some v := by
  induction l with
  | nil => simp [headerGet]
  | cons p t ih =>
    obtain ⟨a, b⟩ := p
    simp only [headerGet] at ih ⊢
    by_cases hp : a = k
    · subst hp; simp [List.filter_cons]
    · simp [List.filter_cons, List.find?_cons, hp]

theorem headerGet_set_ne (l : List (String × String)) (k j v : String) (hne : j ≠ k) :
    headerGet (l.filter (fun kv => !(kv.1 == k)) ++ [(k, v)]) j = headerGet l j := by
  have hkj : ¬ k = j := fun h => hne h.symm
  induction l with
  | nil => simp [headerGet, hkj]
  | cons p t ih =>
    obtain ⟨a, b⟩ := p
    simp only [headerGet] at ih ⊢
    by_cases hp : a = k
    · subst hp
      simpa [List.filter_cons, List.find?_cons, hkj] using ih
    · by_cases hj : a = j
      · subst hj; simp [List.filter_cons, List.find?_cons, hp]
      · simpa [List.filter_cons, List.find?_cons, hp, hj] using ih

theorem headerSet_self (h : Nat) (k v : String) (w : World) :
    (headerSet h k v w).rws h =
      { w.rws h with
        header := ((w.rws h).header.filter (fun kv => !(kv.1 == k))) ++ [(k, v)] } := by
  simp [headerSet, World.setRw]

theorem setCookie_self (h : Nat) (c : Cookie) (w : World) :
    (setCookie h c w).rws h = { w.rws h with cookies := (w.rws h).cookies ++ [c] } := by
  simp [setCookie, World.setRw]

/-- A write changes at most the status and the body of its response writer. -/
theorem fprintf_self_shape (h : Nat) (s : String) (w : World) :
    ∃ st bd, (fprintf h s w).2.rws h = { w.rws h with status := st, body := bd } ∧
      ((w.rws h).alive = true → bd = (w.rws h).body ++ s) := by
  by_cases ha : (w.rws h).alive = true
  · exact ⟨_, _, fprintf_alive h s w ha, fun _ => rfl⟩
  · refine ⟨(w.rws h).status, (w.rws h).body, ?_, fun hh => absurd hh ha⟩
    rw [(fprintf_dead h s w (by simpa using ha)).1]

theorem get_open (h : Nat) (r : Request) (w w1 : World) (id : String)
    (hm : r.Method = "GET") (hfl : (w1.rws h).isFlusher = true)
    (hid : getClientId r w = (some id, w1)) :
    eventsHandlerfunc h r w =
      .waiting id h
        (flush h
          (fprintf h ("Welcome to the event stream - " ++ id ++ "\n")
            (setCookie h
              { Name := "sse_client_id", Value := id, Path := "/",
                Expires := w1.now + 24 * 3600, HttpOnly := true, Secure := false }
              (headerSet h "Connection" "keep-alive"
                (headerSet h "Cache-Control" "no-cache"
                  (headerSet h "Content-Type" "text/event-stream"
                    ((updateClient id h h true w1).emit
                      (.stdout ("Stream joined by -  " ++ id ++ "\n")))))))).2) := by
  unfold eventsHandlerfunc
  rw [hid]
  have hrws : (updateClient id h h true w1).rws = w1.rws := updateClient_rws _ _ _ _ _
  simp [hm, hfl]
  rfl

/-- C7: a GET on a flush-capable response writer `h` reaches its wait on the
closure signal with the resolved identity `id` registered on `h` (writer and
flusher), the three event-stream headers set, the cookie `sse_client_id = id`
(path `/`, 24 hours, HTTP-only, not secure-only) added, and having done in
this order the registration under the lock, the log line, one write of the
welcome line for `id` and one flush; on a live transport the body grows by
exactly the welcome line, and the flush count grows by one. -/
theorem C7_stream_opening (h : Nat) (r : Request) (w : World)
    (hm : r.Method = "GET") (hfl : (w.rws h).isFlusher = true) :
    ∃ id w', (getClientId r w).1 = some id ∧
      eventsHandlerfunc h r w = .waiting id h w' ∧
      mapLoad w'.clients id = some { writer := h, flusher := h } ∧
      headerGet (w'.rws h).header "Content-Type" = some "text/event-stream" ∧
      headerGet (w'.rws h).header "Cache-Control" = some "no-cache" ∧
      headerGet (w'.rws h).header "Connection" = some "keep-alive" ∧
      (w'.rws h).cookies = (w.rws h).cookies ++
        [{ Name := "sse_client_id", Value := id, Path := "/",
           Expires := w.now + 24 * 3600, HttpOnly := true, Secure := false }] ∧
      w'.trace = w.trace ++
        [Event.lock, Event.mapStore id { writer := h, flusher := h }, Event.unlock,
         Event.stdout ("Stream joined by -  " ++ id ++ "\n"),
         Event.write h ("Welcome to the event stream - " ++ id ++ "\n"),
         Event.flush h] ∧
      ((w.rws h).alive = true →
        (w'.rws h).body =
          (w.rws h).body ++ ("Welcome to the event stream - " ++ id ++ "\n")) ∧
      (w'.rws h).flushes = (w.rws h).flushes + 1 := by
  obtain ⟨id, w1, hid, hcl, hrws, htr, hnow⟩ := getClientId_total r w
  have hfl1 : (w1.rws h).isFlusher = true := by rw [hrws]; exact hfl
  have hbase : ((updateClient id h h true w1).emit
      (.stdout ("Stream joined by -  " ++ id ++ "\n"))).rws = w.rws := by
    show (updateClient id h h true w1).rws = w.rws
    rw [updateClient_rws, hrws]
  obtain ⟨st, bd, hshape, hbd⟩ := fprintf_self_shape h
    ("Welcome to the event stream - " ++ id ++ "\n")
    (setCookie h
      { Name := "sse_client_id", Value := id, Path := "/",
        Expires := w1.now + 24 * 3600, HttpOnly := true, Secure := false }
      (headerSet h "Connection" "keep-alive"
        (headerSet h "Cache-Control" "no-cache"
          (headerSet h "Content-Type" "text/event-stream"
            ((updateClient id h h true w1).emit
              (.stdout ("Stream joined by -  " ++ id ++ "\n")))))))
  simp only [setCookie_self, headerSet_self, hbase] at hshape hbd
  refine ⟨id, _, by rw [hid], get_open h r w w1 id hm hfl1 hid, ?_, ?_, ?_, ?_, ?_, ?_, ?_, ?_⟩
  · rw [flush_clients, fprintf_clients]
    show mapLoad (mapStore w1.clients id _) id = _
    exact mapLoad_mapStore_self _ _ _
  · rw [flush_self, hshape]
    dsimp only
    rw [headerGet_set_ne _ _ _ _ (by decide), headerGet_set_ne _ _ _ _ (by decide),
      headerGet_set_self]
  · rw [flush_self, hshape]
    dsimp only
    rw [headerGet_set_ne _ _ _ _ (by decide), headerGet_set_self]
  · rw [flush_self, hshape]
    dsimp only
    rw [headerGet_set_self]
  · rw [flush_self, hshape, hnow]
  · rw [flush_trace, fprintf_trace]
    simp [setCookie, headerSet, World.setRw, World.emit, updateClient, htr]
  · intro ha
    rw [flush_self, hshape]
    exact hbd ha
  · rw [flush_self, hshape]

/-- C7 at a GET presenting the token `X` on the fresh writer `1`. -/
theorem C7_stream_opening_witness :
    (getReq "X").Method = "GET" ∧ (initWorld.rws 1).isFlusher = true ∧
    mapLoad (eventsHandlerfunc 1 (getReq "X") initWorld).world.clients "X" =
      some { writer := 1, flusher := 1 } ∧
    ((eventsHandlerfunc 1 (getReq "X") initWorld).world.rws 1).body =
      "Welcome to the event stream - X\n" := by
  obtain ⟨id, w', hid, hret, hreg, _, _, _, _, _, hbody, _⟩ :=
    C7_stream_opening 1 (getReq "X") initWorld rfl rfl
  have hX : id = "X" := by
    have h0 : (getClientId (getReq "X") initWorld).1 = some "X" := rfl
    rw [h0] at hid
    exact (Option.some.inj hid).symm
  subst hX
  rw [hret]
  exact ⟨rfl, rfl, hreg, hbody rfl⟩

/-! ## Two sessions under one identity -/

/-- C10: if a first session registers `id` with one entry, a second session
registers `id` with another, and the first session then runs its closure
branch, the entry under `id` is gone whichever session stored it: a lookup
of `id` finds nothing and a POST addressed to `id` is answered 400.  From
the initial state the server reaches, by two GETs presenting the same token
and the closure of the first, a state in which a session is attached and
has no registry entry: that every attached session has an entry is not an
invariant of the step relation. -/
theorem C10_stale_close_evicts_live_session (w : World) (id : String)
    (f1 wr1 f2 wr2 h : Nat) (r : Request) (m : String)
    (hm : r.Method = "POST") (hd : r.decoded = some { Message := m, To := id })
    (hfresh : (w.rws h).status = none) :
    (getClient id
      (updateClient id f1 wr1 false
        (updateClient id f2 wr2 true (updateClient id f1 wr1 true w)))).1 = none ∧
    (∃ w', eventsHandlerfunc h r
        (updateClient id f1 wr1 false
          (updateClient id f2 wr2 true (updateClient id f1 wr1 true w))) = .returned w' ∧
      statusOf w' h = 400) ∧
    (∃ s, Reach ⟨initWorld, []⟩ s ∧ ("X", 2) ∈ s.attached ∧ ¬ attachedRegistered s) := by
  have hgone : mapLoad
      (updateClient id f1 wr1 false
        (updateClient id f2 wr2 true (updateClient id f1 wr1 true w))).clients id = none := by
    rw [updateClient_delete_clients]
    exact mapLoad_mapDelete_self _ _
  refine ⟨?_, ?_, ?_⟩
  · rw [getClient_fst]; exact hgone
  · obtain ⟨cid, w1, hid, hcl, hrws, _, _⟩ := getClientId_total r
      (updateClient id f1 wr1 false
        (updateClient id f2 wr2 true (updateClient id f1 wr1 true w)))
    refine ⟨_, post_unknown h r _ w1 cid { Message := m, To := id } hm hd hid
      (by rw [hcl]; exact hgone), ?_⟩
    apply httpError_status
    show (w1.rws h).status = none
    rw [hrws]
    simp only [updateClient_rws]
    exact hfresh
  · let s0 : Sys := ⟨initWorld, []⟩
    let s1 : Sys := ⟨(eventsHandlerfunc 1 (getReq "X") initWorld).world, [("X", 1)]⟩
    let s2 : Sys :=
      ⟨(eventsHandlerfunc 2 (getReq "X") s1.world).world, [("X", 2), ("X", 1)]⟩
    let s3 : Sys := ⟨onNotify "X" 1 s2.world, s2.attached.erase ("X", 1)⟩
    have r1 : Reach s0 s1 :=
      Reach.step s0 s1 Reach.refl
        (Step.attach s0 1 (getReq "X") "X" _ rfl (by intro p hp; cases hp))
    have r2 : Reach s0 s2 :=
      Reach.step s1 s2 r1
        (Step.attach s1 2 (getReq "X") "X" _ rfl (by decide))
    have r3 : Reach s0 s3 :=
      Reach.step s2 s3 r2 (Step.close s2 "X" 1 (by decide))
    refine ⟨s3, r3, by decide, ?_⟩
    intro hinv
    exact hinv ("X", 2) (by decide) (by decide)

/-- C10 at the token `X`: sessions on writers `1` and `2`, the first closes,
and a POST from writer `3` to `X` is answered 400. -/
theorem C10_stale_close_witness :
    (postReq "hi" "X").Method = "POST" ∧ (initWorld.rws 3).status = none ∧
    (getClient "X"
      (updateClient "X" 1 1 false
        (updateClient "X" 2 2 true (updateClient "X" 1 1 true initWorld)))).1 = none ∧
    statusOf (eventsHandlerfunc 3 (postReq "hi" "X")
      (updateClient "X" 1 1 false
        (updateClient "X" 2 2 true (updateClient "X" 1 1 true initWorld)))).world 3 = 400 := by
  obtain ⟨hgone, ⟨w', hret, hst⟩, _⟩ :=
    C10_stale_close_evicts_live_session initWorld "X" 1 1 2 2 3 (postReq "hi" "X") "hi"
      rfl rfl (by decide)
  rw [hret]
  exact ⟨rfl, by decide, hgone, hst⟩

end GoSSE
